import Mathlib

/-!
CAN reader example (`can_reader.c`): shallow embedding and verified properties.

The program registers callbacks with the PolySync node template.  The CAN
driver (`psync_can_*`), the fault dispatcher, the logger, `printf`, `malloc`
and `free` are external.  They are embedded as

* a driver interface `CanApi σ` over an arbitrary driver state `σ`: every
  driver call is a function from the driver state to a return DTC and a new
  driver state, so theorems quantify over every possible driver behaviour;
* a trace of observable events (`Event`), appended in program order, that
  records each external call with its arguments and result.

Constants of the PolySync headers that are not part of `can_reader.c` are
collected in the parameter record `Env`.
-/

namespace CanReader

/-! ## Data model -/

/-- Pointers are addresses; `NULL` is address zero. -/
abbrev Ptr := Nat

/-- The C null pointer. -/
def NULL : Ptr := 0

/-- Value of `DTC_NONE`: the source documents it as
"DTC_NONE (zero) if success" (doc comment of `set_configuration`). -/
def DTC_NONE : Int := 0

/-- Node states named by the callback documentation of the source
(INIT, OK, WARN, ERROR, FATAL). -/
inductive ps_node_state_kind where
  | NODE_STATE_INIT
  | NODE_STATE_OK
  | NODE_STATE_WARN
  | NODE_STATE_ERROR
  | NODE_STATE_FATAL
  deriving DecidableEq, Repr

open ps_node_state_kind

/-- Modelled from the spec: the enumeration of CAN bit rates of the absent
header `polysync_can.h` ("one of a fixed enumerated set of standard CAN bus
speeds (e.g., 125k/250k/500k/1M)"). -/
inductive ps_datarate_kind where
  | DATARATE_125K
  | DATARATE_250K
  | DATARATE_500K
  | DATARATE_1M
  deriving DecidableEq, Repr

open ps_datarate_kind

/-- Constants of the PolySync headers used by `can_reader.c` whose values are
not in the source: they are parameters of the embedding. -/
structure Env where
  DTC_USAGE : Int
  DTC_MEMERR : Int
  DTC_UNAVAILABLE : Int
  DTC_INTR : Int
  PSYNC_CAN_OPEN_ALLOW_VIRTUAL : Nat
  PSYNC_NODE_TYPE_API_USER : Nat
  PSYNC_DEFAULT_DOMAIN : Nat
  PSYNC_SDF_ID_INVALID : Nat
  PSYNC_INIT_FLAG_STDOUT_LOGGING : Nat
  /-- Macro `NODE_FLAGS_VALUE`, "provided by the compiler" (0 when not provided). -/
  NODE_FLAGS_VALUE : Nat
  LOG_LEVEL_ERROR : Nat
  /-- Size `sizeof(node_config->node_name)`. -/
  sizeof_node_name : Nat
  /-- Size `sizeof(ps_can_channel)`. -/
  sizeof_can_channel : Nat

/-- Macro `CAN_CHANNEL_SYSTEM_ID`. -/
def CAN_CHANNEL_SYSTEM_ID : Nat := 0

/-- Macro `CAN_CHANNEL_BITRATE`. -/
def CAN_CHANNEL_BITRATE : ps_datarate_kind := DATARATE_500K

/-- Constant `NODE_NAME`. -/
def NODE_NAME : String := "polysync-can-reader-c"

/-- A CAN frame: identifier, data length code and payload bytes.  The two
fields the program reads (`id`, `dlc`) are printed with `%lX` / `%lu`, i.e. as
`unsigned long` values. -/
structure ps_can_frame where
  id : Nat
  dlc : Nat
  data_buffer : List Nat
  deriving DecidableEq, Repr

/-- Call `memset( &can_frame, 0, sizeof(can_frame) )`: every byte of the frame
becomes zero, whatever the local variable held before. -/
def memset_frame_zero (f : ps_can_frame) : ps_can_frame :=
  { id := 0, dlc := 0, data_buffer := f.data_buffer.map (fun _ => 0) }

/-- Observable events, in program order. Driver calls carry their arguments
and the DTC they returned. -/
inductive Event where
  | can_open (channel : Ptr) (system_index : Nat) (flags : Nat) (ret : Int)
  | can_set_bit_rate (channel : Ptr) (rate : ps_datarate_kind) (ret : Int)
  | can_go_on_bus (channel : Ptr) (ret : Int)
  | can_read (channel : Ptr) (buffer : ps_can_frame) (timeout_us : Nat)
      (ret : Int) (frame : ps_can_frame)
  | can_close (channel : Ptr) (ret : Int)
  | free (p : Ptr)
  | activate_fault (dtc : Int) (state : ps_node_state_kind)
  | log_message (level : Nat) (format : String) (arg : Option Int)
  | printf (line : String)
  | sleep_micro (us : Nat)
  deriving DecidableEq, Repr

/-- The external CAN driver: each call maps the driver state to a DTC and a
new driver state; `psync_can_read` also fills the frame buffer. -/
structure CanApi (σ : Type) where
  psync_can_open : σ → Ptr → Nat → Nat → Int × σ
  psync_can_set_bit_rate : σ → Ptr → ps_datarate_kind → Int × σ
  psync_can_go_on_bus : σ → Ptr → Int × σ
  psync_can_read : σ → Ptr → ps_can_frame → Nat → Int × ps_can_frame × σ
  psync_can_close : σ → Ptr → Int × σ

/-- Driver state together with the trace of events so far. -/
structure World (σ : Type) where
  drv : σ
  trace : List Event

/-- Append one event to the trace. -/
def World.emit {σ : Type} (w : World σ) (e : Event) : World σ :=
  { w with trace := w.trace ++ [e] }

/-! ## External calls, recorded in the trace -/

/-- Driver call `psync_can_open`, recorded with its result. -/
def call_open {σ : Type} (api : CanApi σ) (w : World σ) (ch : Ptr) (idx flags : Nat) :
    Int × World σ :=
  let r := api.psync_can_open w.drv ch idx flags
  (r.1, { drv := r.2, trace := w.trace ++ [Event.can_open ch idx flags r.1] })

/-- Driver call `psync_can_set_bit_rate`, recorded with its result. -/
def call_set_bit_rate {σ : Type} (api : CanApi σ) (w : World σ) (ch : Ptr)
    (rate : ps_datarate_kind) : Int × World σ :=
  let r := api.psync_can_set_bit_rate w.drv ch rate
  (r.1, { drv := r.2, trace := w.trace ++ [Event.can_set_bit_rate ch rate r.1] })

/-- Driver call `psync_can_go_on_bus`, recorded with its result. -/
def call_go_on_bus {σ : Type} (api : CanApi σ) (w : World σ) (ch : Ptr) : Int × World σ :=
  let r := api.psync_can_go_on_bus w.drv ch
  (r.1, { drv := r.2, trace := w.trace ++ [Event.can_go_on_bus ch r.1] })

/-- Driver call `psync_can_read`, recorded with the buffer passed, its result
and the frame delivered. -/
def call_read {σ : Type} (api : CanApi σ) (w : World σ) (ch : Ptr) (buf : ps_can_frame)
    (timeout_us : Nat) : Int × ps_can_frame × World σ :=
  let r := api.psync_can_read w.drv ch buf timeout_us
  (r.1, r.2.1,
    { drv := r.2.2, trace := w.trace ++ [Event.can_read ch buf timeout_us r.1 r.2.1] })

/-- Driver call `psync_can_close`, recorded with its result. -/
def call_close {σ : Type} (api : CanApi σ) (w : World σ) (ch : Ptr) : Int × World σ :=
  let r := api.psync_can_close w.drv ch
  (r.1, { drv := r.2, trace := w.trace ++ [Event.can_close ch r.1] })

/-! ## `printf` for the conversions the program uses -/

/-- Digits of `n` in base `b`, most significant first (`fuel` bounds the
number of digits). -/
def digitsCore (b : Nat) : Nat → Nat → List Nat → List Nat
  | 0, _, acc => acc
  | fuel + 1, n, acc =>
    if n / b = 0 then (n % b) :: acc
    else digitsCore b fuel (n / b) ((n % b) :: acc)

/-- Digits of `n` in base `b`, most significant first; `[0]` for zero. -/
def digitsOf (b n : Nat) : List Nat := digitsCore b (n + 1) n []

/-- Upper-case hexadecimal digit character (`0-9`, `A-F`). -/
def upperHexChar (d : Nat) : Char :=
  if d < 10 then Char.ofNat (48 + d) else Char.ofNat (55 + d)

/-- Decimal digit character. -/
def decChar (d : Nat) : Char := Char.ofNat (48 + d)

/-- Conversion `%lX`. -/
def fmt_lX (n : Nat) : List Char := (digitsOf 16 n).map upperHexChar

/-- Conversion `%lu`. -/
def fmt_lu (n : Nat) : List Char := (digitsOf 10 n).map decChar

/-- Formatted output for a format made of literal text and the conversions
`%lX` and `%lu`, consuming one argument per conversion. -/
def printf_chars : List Char → List Nat → List Char
  | '%' :: 'l' :: 'X' :: rest, a :: args => fmt_lX a ++ printf_chars rest args
  | '%' :: 'l' :: 'u' :: rest, a :: args => fmt_lu a ++ printf_chars rest args
  | c :: rest, args => c :: printf_chars rest args
  | [], _ => []

/-- The text `printf( format, args... )` writes. -/
def printf_text (format : String) (args : List Nat) : String :=
  String.mk (printf_chars format.toList args)

/-- Value of an upper-case hexadecimal digit character. -/
def upperHexVal (c : Char) : Nat :=
  if c.toNat < 58 then c.toNat - 48 else c.toNat - 55

/-- Value of a decimal digit character. -/
def decVal (c : Char) : Nat := c.toNat - 48

/-- Number denoted by digits `ds` (most significant first) in base `b`. -/
def valueOf (b : Nat) (ds : List Nat) : Nat := ds.foldl (fun a d => a * b + d) 0

/-- Read an upper-case hexadecimal numeral. -/
def parse_hex (cs : List Char) : Nat := valueOf 16 (cs.map upperHexVal)

/-- Read a decimal numeral. -/
def parse_dec (cs : List Char) : Nat := valueOf 10 (cs.map decVal)

/-! ## The callbacks -/

/-- Callback `on_init`. -/
def on_init {σ : Type} (E : Env) (api : CanApi σ) (user_data : Ptr) (w : World σ) :
    World σ :=
  let can_channel := user_data
  if can_channel = NULL then
    let w := w.emit (Event.log_message E.LOG_LEVEL_ERROR
      "%s : (%u) -- invalid CAN channel" none)
    w.emit (Event.activate_fault E.DTC_USAGE NODE_STATE_FATAL)
  else
    let r := call_open api w can_channel CAN_CHANNEL_SYSTEM_ID E.PSYNC_CAN_OPEN_ALLOW_VIRTUAL
    let ret := r.1
    let w := r.2
    if ret ≠ DTC_NONE then
      let w := w.emit (Event.log_message E.LOG_LEVEL_ERROR
        "%s : (%u) -- psync_can_open returned DTC %d" (some ret))
      w.emit (Event.activate_fault ret NODE_STATE_FATAL)
    else
      let r := call_set_bit_rate api w can_channel CAN_CHANNEL_BITRATE
      let ret := r.1
      let w := r.2
      if ret ≠ DTC_NONE then
        let w := w.emit (Event.log_message E.LOG_LEVEL_ERROR
          "%s : (%u) -- psync_can_set_bit_rate returned DTC %d" (some ret))
        w.emit (Event.activate_fault ret NODE_STATE_FATAL)
      else
        let r := call_go_on_bus api w can_channel
        let ret := r.1
        let w := r.2
        if ret ≠ DTC_NONE then
          let w := w.emit (Event.log_message E.LOG_LEVEL_ERROR
            "%s : (%u) -- psync_can_go_on_bus returned DTC %d" (some ret))
          w.emit (Event.activate_fault ret NODE_STATE_FATAL)
        else
          w

/-- Callback `on_release`. -/
def on_release {σ : Type} (api : CanApi σ) (user_data : Ptr) (w : World σ) : World σ :=
  let can_channel := user_data
  if can_channel ≠ NULL then
    let r := call_close api w can_channel
    r.2.emit (Event.free can_channel)
  else
    w

/-- Callback `on_error`. -/
def on_error {σ : Type} (w : World σ) : World σ := w.emit (Event.sleep_micro 10000)

/-- Callback `on_fatal`. -/
def on_fatal {σ : Type} (w : World σ) : World σ := w.emit (Event.sleep_micro 10000)

/-- Callback `on_warn`. -/
def on_warn {σ : Type} (w : World σ) : World σ := w.emit (Event.sleep_micro 10000)

/-- Callback `on_ok`.  `stack_frame` is the indeterminate initial content of the local
variable `can_frame`. -/
def on_ok {σ : Type} (E : Env) (api : CanApi σ) (user_data : Ptr)
    (stack_frame : ps_can_frame) (w : World σ) : World σ :=
  let can_channel := user_data
  if can_channel = NULL then
    let w := w.emit (Event.log_message E.LOG_LEVEL_ERROR
      "%s : (%u) -- invalid CAN channel" none)
    w.emit (Event.activate_fault E.DTC_USAGE NODE_STATE_FATAL)
  else
    let can_frame := memset_frame_zero stack_frame
    let r := call_read api w can_channel can_frame 10000
    let ret := r.1
    let can_frame := r.2.1
    let w := r.2.2
    if ret = DTC_NONE then
      w.emit (Event.printf (printf_text "CAN frame - ID: 0x%lX (%lu) - DLC: %lu\n"
        [can_frame.id, can_frame.id, can_frame.dlc]))
    else if ret ≠ E.DTC_UNAVAILABLE ∧ ret ≠ E.DTC_INTR then
      if ret ≠ DTC_NONE then
        let w := w.emit (Event.log_message E.LOG_LEVEL_ERROR
          "%s : (%u) -- psync_can_read returned DTC %d" (some ret))
        w.emit (Event.activate_fault ret NODE_STATE_FATAL)
      else
        w
    else
      w

/-! ## `set_configuration` and the C library calls it makes -/

/-- Node configuration record (the fields `set_configuration` writes);
`node_name` is the byte content of the `char` array. -/
structure ps_node_configuration_data where
  node_type : Nat
  domain_id : Nat
  sdf_key : Nat
  flags : Nat
  user_data : Ptr
  node_name : List Nat
  deriving DecidableEq, Repr

/-- Allocated heap blocks: address and byte content. -/
abbrev Heap := List (Ptr × List Nat)

/-- An address above every allocated block, and above `NULL`. -/
def fresh_address (h : Heap) : Ptr := (h.map Prod.fst).foldr max 0 + 1

/-- C library `malloc( size )`: either fails (returns `NULL`, heap unchanged)
or returns a new block at an unused non-null address whose bytes are
indeterminate (`garbage`). -/
def malloc (h : Heap) (size : Nat) (out_of_memory : Bool) (garbage : Nat → Nat) :
    Ptr × Heap :=
  if out_of_memory then (NULL, h)
  else (fresh_address h, (fresh_address h, (List.range size).map garbage) :: h)

/-- Content of the block at address `p`. -/
def Heap.block (h : Heap) (p : Ptr) : Option (List Nat) :=
  (h.find? (fun b => b.1 = p)).map Prod.snd

/-- C library `memset( s, c, n )` on a byte array. -/
def memset (bytes : List Nat) (c n : Nat) : List Nat :=
  List.replicate (min n bytes.length) c ++ bytes.drop n

/-- Call `memset( p, c, n )` on the heap block at `p`. -/
def Heap.memset (h : Heap) (p : Ptr) (c n : Nat) : Heap :=
  h.map (fun b => if b.1 = p then (b.1, CanReader.memset b.2 c n) else b)

/-- Bytes of a C string literal, without the terminating NUL. -/
def c_bytes (s : String) : List Nat := s.toList.map Char.toNat

/-- C library `strncpy( dst, src, n )`: the first `n` bytes of `dst` become
the bytes of `src` (at most `n`), padded with NUL up to `n`. -/
def strncpy (dst src : List Nat) (n : Nat) : List Nat :=
  (src.take n ++ List.replicate (n - src.length) 0) ++ dst.drop n

/-- The C string held by a byte array: the bytes before the first NUL. -/
def c_string (bytes : List Nat) : String :=
  String.mk ((bytes.takeWhile (fun b => b ≠ 0)).map Char.ofNat)

/-- Result of `set_configuration`: return value, the configuration written,
the heap and the messages logged. -/
structure ConfigResult where
  ret : Int
  node_config : ps_node_configuration_data
  heap : Heap
  trace : List Event

/-- Function `set_configuration`.  `out_of_memory` and `garbage` are the outcome of
the `malloc` call. -/
def set_configuration (E : Env) (node_config : ps_node_configuration_data) (h : Heap)
    (out_of_memory : Bool) (garbage : Nat → Nat) : ConfigResult :=
  let node_config := { node_config with node_type := E.PSYNC_NODE_TYPE_API_USER }
  let node_config := { node_config with domain_id := E.PSYNC_DEFAULT_DOMAIN }
  let node_config := { node_config with sdf_key := E.PSYNC_SDF_ID_INVALID }
  let node_config :=
    { node_config with flags := E.NODE_FLAGS_VALUE ||| E.PSYNC_INIT_FLAG_STDOUT_LOGGING }
  let node_config := { node_config with user_data := NULL }
  let node_config :=
    { node_config with node_name := memset node_config.node_name 0 E.sizeof_node_name }
  let node_config :=
    { node_config with
      node_name := strncpy node_config.node_name (c_bytes NODE_NAME) E.sizeof_node_name }
  let r := malloc h E.sizeof_can_channel out_of_memory garbage
  let can_channel := r.1
  let h := r.2
  if can_channel = NULL then
    { ret := E.DTC_MEMERR, node_config := node_config, heap := h,
      trace := [Event.log_message E.LOG_LEVEL_ERROR
        "%s : (%u) -- failed to allocate CAN channel data structure" none] }
  else
    let h := h.memset can_channel 0 E.sizeof_can_channel
    let node_config := { node_config with user_data := can_channel }
    { ret := DTC_NONE, node_config := node_config, heap := h, trace := [] }

/-! ## Node lifecycle: the callbacks as steps -/

/-- A fault with target state `NODE_STATE_FATAL` has been activated. -/
def fatal_activated (tr : List Event) : Bool :=
  tr.any (fun e => match e with
    | Event.activate_fault _ NODE_STATE_FATAL => true
    | _ => false)

/-- One tick of the node template after initialisation: some callback runs
on the same `user_data`; `on_ok` runs only while no fatal fault is active. -/
inductive Step {σ : Type} (E : Env) (api : CanApi σ) (user_data : Ptr) :
    World σ → World σ → Prop where
  | ok (w : World σ) (stack_frame : ps_can_frame) :
      fatal_activated w.trace = false →
      Step E api user_data w (on_ok E api user_data stack_frame w)
  | warn (w : World σ) : Step E api user_data w (on_warn w)
  | error (w : World σ) : Step E api user_data w (on_error w)
  | fatal (w : World σ) : Step E api user_data w (on_fatal w)
  | release (w : World σ) : Step E api user_data w (on_release api user_data w)

/-- Worlds reachable in a run of the node: `on_init` runs once, first, from
the initial driver state with an empty trace; then any number of ticks. -/
inductive Run {σ : Type} (E : Env) (api : CanApi σ) (user_data : Ptr) (drv0 : σ) :
    World σ → Prop where
  | init : Run E api user_data drv0 (on_init E api user_data { drv := drv0, trace := [] })
  | step {w w2 : World σ} :
      Run E api user_data drv0 w → Step E api user_data w w2 → Run E api user_data drv0 w2

/-- The three driver events of a successful initialisation of `channel`. -/
def init_events (E : Env) (channel : Ptr) : List Event :=
  [ Event.can_open channel CAN_CHANNEL_SYSTEM_ID E.PSYNC_CAN_OPEN_ALLOW_VIRTUAL DTC_NONE,
    Event.can_set_bit_rate channel CAN_CHANNEL_BITRATE DTC_NONE,
    Event.can_go_on_bus channel DTC_NONE ]

/-- The fault activations of a trace, in order. -/
def faults (tr : List Event) : List (Int × ps_node_state_kind) :=
  tr.filterMap (fun e => match e with
    | Event.activate_fault d s => some (d, s)
    | _ => none)

/-- The lines printed in a trace, in order. -/
def printed (tr : List Event) : List String :=
  tr.filterMap (fun e => match e with
    | Event.printf l => some l
    | _ => none)

/-- The CAN driver calls of a trace, in order. -/
def driver_calls (tr : List Event) : List Event :=
  tr.filter (fun e => match e with
    | Event.can_open _ _ _ _ => true
    | Event.can_set_bit_rate _ _ _ => true
    | Event.can_go_on_bus _ _ => true
    | Event.can_read _ _ _ _ _ => true
    | Event.can_close _ _ => true
    | _ => false)

/-- Every `psync_can_read` event of the trace comes after the three events
of a successful initialisation of the channel it reads. -/
def ReadsAfterInit (E : Env) (tr : List Event) : Prop :=
  ∀ pre ch buf t r f post, tr = pre ++ Event.can_read ch buf t r f :: post →
    ∃ rest, pre = init_events E ch ++ rest

/-- The event is a `psync_can_read` call. -/
def is_read : Event → Bool
  | Event.can_read _ _ _ _ _ => true
  | _ => false

/-- Invariant of the lifecycle: reads come after a successful initialisation,
and while no fatal fault is active the trace starts with the successful
initialisation of `user_data`. -/
def LifecycleInv (E : Env) (user_data : Ptr) (tr : List Event) : Prop :=
  ReadsAfterInit E tr
    ∧ (fatal_activated tr = false → ∃ rest, tr = init_events E user_data ++ rest)

/-! ## A replaying driver, for concrete runs -/

/-- Next scripted result; an exhausted script answers `DTC_NONE`. -/
def next_result (s : List (Int × ps_can_frame)) : (Int × ps_can_frame) × List (Int × ps_can_frame) :=
  match s with
  | [] => ((DTC_NONE, { id := 0, dlc := 0, data_buffer := [] }), [])
  | x :: xs => (x, xs)

/-- A driver that replays a list of results, one per call. -/
def replayApi : CanApi (List (Int × ps_can_frame)) where
  psync_can_open := fun s _ _ _ => ((next_result s).1.1, (next_result s).2)
  psync_can_set_bit_rate := fun s _ _ => ((next_result s).1.1, (next_result s).2)
  psync_can_go_on_bus := fun s _ => ((next_result s).1.1, (next_result s).2)
  psync_can_read := fun s _ _ _ => ((next_result s).1.1, (next_result s).1.2, (next_result s).2)
  psync_can_close := fun s _ => ((next_result s).1.1, (next_result s).2)

/-- Example values for the header constants. -/
def exampleEnv : Env where
  DTC_USAGE := 1
  DTC_MEMERR := 5
  DTC_UNAVAILABLE := 10
  DTC_INTR := 6
  PSYNC_CAN_OPEN_ALLOW_VIRTUAL := 1
  PSYNC_NODE_TYPE_API_USER := 1
  PSYNC_DEFAULT_DOMAIN := 0
  PSYNC_SDF_ID_INVALID := 0
  PSYNC_INIT_FLAG_STDOUT_LOGGING := 2
  NODE_FLAGS_VALUE := 0
  LOG_LEVEL_ERROR := 1
  sizeof_node_name := 32
  sizeof_can_channel := 16

/-- The frame of the spec scenario: id 0x123, dlc 4, data 1 2 3 4. -/
def frame_0x123 : ps_can_frame := { id := 0x123, dlc := 4, data_buffer := [1, 2, 3, 4] }

/-! ## Helper lemmas -/

theorem digitsCore_value (b : Nat) (hb : 2 ≤ b) (fuel n : Nat) (acc : List Nat)
    (h : n < fuel) :
    (digitsCore b fuel n acc).foldl (fun a d => a * b + d) 0
      = acc.foldl (fun a d => a * b + d) n := by
  induction fuel generalizing n acc with
  | zero => omega
  | succ k ih =>
    unfold digitsCore
    split
    · rename_i h0
      have hn : n % b = n := by
        have := Nat.div_add_mod n b
        rw [h0] at this
        simpa using this
      simp [hn]
    · rename_i h0
      have hlt : n / b < k := by
        have h1 : n / b < n := Nat.div_lt_self (by
          rcases Nat.eq_zero_or_pos n with h | h
          · subst h; simp at h0
          · exact h) hb
        omega
      rw [ih (n / b) _ hlt]
      simp only [List.foldl_cons]
      rw [Nat.mul_comm, Nat.div_add_mod]

theorem valueOf_digitsOf (b n : Nat) (hb : 2 ≤ b) : valueOf b (digitsOf b n) = n := by
  unfold valueOf digitsOf
  rw [digitsCore_value b hb (n + 1) n [] (Nat.lt_succ_self n)]
  rfl

theorem digitsCore_lt (b : Nat) (hb : 0 < b) (fuel n : Nat) (acc : List Nat)
    (hacc : ∀ d ∈ acc, d < b) : ∀ d ∈ digitsCore b fuel n acc, d < b := by
  induction fuel generalizing n acc with
  | zero => simpa [digitsCore] using hacc
  | succ k ih =>
    unfold digitsCore
    split
    · intro d hd
      rcases List.mem_cons.1 hd with h | h
      · subst h; exact Nat.mod_lt _ hb
      · exact hacc d h
    · apply ih
      intro d hd
      rcases List.mem_cons.1 hd with h | h
      · subst h; exact Nat.mod_lt _ hb
      · exact hacc d h

theorem upperHexVal_upperHexChar (d : Nat) (h : d < 16) : upperHexVal (upperHexChar d) = d := by
  interval_cases d <;> decide

theorem decVal_decChar (d : Nat) (h : d < 10) : decVal (decChar d) = d := by
  interval_cases d <;> decide

theorem parse_hex_fmt_lX (n : Nat) : parse_hex (fmt_lX n) = n := by
  unfold parse_hex fmt_lX
  have hd : ∀ d ∈ digitsOf 16 n, d < 16 :=
    digitsCore_lt 16 (by decide) _ _ _ (by simp)
  have : (digitsOf 16 n).map (upperHexVal ∘ upperHexChar) = digitsOf 16 n := by
    conv => rhs; rw [← List.map_id (digitsOf 16 n)]
    apply List.map_congr_left
    intro d hdm
    simpa using upperHexVal_upperHexChar d (hd d hdm)
  rw [List.map_map, this, valueOf_digitsOf _ _ (by decide)]

theorem parse_dec_fmt_lu (n : Nat) : parse_dec (fmt_lu n) = n := by
  unfold parse_dec fmt_lu
  have hd : ∀ d ∈ digitsOf 10 n, d < 10 :=
    digitsCore_lt 10 (by decide) _ _ _ (by simp)
  have : (digitsOf 10 n).map (decVal ∘ decChar) = digitsOf 10 n := by
    conv => rhs; rw [← List.map_id (digitsOf 10 n)]
    apply List.map_congr_left
    intro d hdm
    simpa using decVal_decChar d (hd d hdm)
  rw [List.map_map, this, valueOf_digitsOf _ _ (by decide)]

/-- The frame line as literal text around the three conversions. -/
theorem printf_frame_line (id dlc : Nat) :
    printf_text "CAN frame - ID: 0x%lX (%lu) - DLC: %lu\n" [id, id, dlc]
      = String.mk ("CAN frame - ID: 0x".toList ++ fmt_lX id ++ " (".toList ++ fmt_lu id
          ++ ") - DLC: ".toList ++ fmt_lu dlc ++ "\n".toList) := by
  simp [printf_text, printf_chars]

/-- Trace of `on_ok` on a non-NULL channel, by the DTC the read returned. -/
theorem on_ok_trace {σ : Type} (E : Env) (api : CanApi σ) (ch : Ptr)
    (stack_frame : ps_can_frame) (w : World σ) (hch : ch ≠ NULL) :
    (on_ok E api ch stack_frame w).trace
      = w.trace
        ++ [Event.can_read ch (memset_frame_zero stack_frame) 10000
              (api.psync_can_read w.drv ch (memset_frame_zero stack_frame) 10000).1
              (api.psync_can_read w.drv ch (memset_frame_zero stack_frame) 10000).2.1]
        ++ (if (api.psync_can_read w.drv ch (memset_frame_zero stack_frame) 10000).1 = DTC_NONE
            then [Event.printf (printf_text "CAN frame - ID: 0x%lX (%lu) - DLC: %lu\n"
              [(api.psync_can_read w.drv ch (memset_frame_zero stack_frame) 10000).2.1.id,
               (api.psync_can_read w.drv ch (memset_frame_zero stack_frame) 10000).2.1.id,
               (api.psync_can_read w.drv ch (memset_frame_zero stack_frame) 10000).2.1.dlc])]
            else if (api.psync_can_read w.drv ch (memset_frame_zero stack_frame) 10000).1
                  = E.DTC_UNAVAILABLE
                ∨ (api.psync_can_read w.drv ch (memset_frame_zero stack_frame) 10000).1
                  = E.DTC_INTR
            then []
            else [Event.log_message E.LOG_LEVEL_ERROR
                    "%s : (%u) -- psync_can_read returned DTC %d"
                    (some (api.psync_can_read w.drv ch (memset_frame_zero stack_frame) 10000).1),
                  Event.activate_fault
                    (api.psync_can_read w.drv ch (memset_frame_zero stack_frame) 10000).1
                    NODE_STATE_FATAL]) := by
  generalize hr : api.psync_can_read w.drv ch (memset_frame_zero stack_frame) 10000 = r
  obtain ⟨ret, frame, drv2⟩ := r
  by_cases h0 : ret = DTC_NONE
  · simp [on_ok, call_read, World.emit, hch, hr, h0]
  · by_cases h1 : ret = E.DTC_UNAVAILABLE
    · subst h1
      simp [on_ok, call_read, World.emit, hch, hr, h0]
    · by_cases h2 : ret = E.DTC_INTR
      · subst h2
        simp [on_ok, call_read, World.emit, hch, hr, h0]
      · simp [on_ok, call_read, World.emit, hch, hr, h0, h1, h2]

/-- Result of `on_init` on a non-NULL channel, by the DTCs of the three
driver steps (a later step is only consulted when the earlier ones succeed). -/
theorem on_init_eq {σ : Type} (E : Env) (api : CanApi σ) (ch : Ptr) (w : World σ)
    (r1 r2 r3 : Int) (d1 d2 d3 : σ) (hch : ch ≠ NULL)
    (hopen : api.psync_can_open w.drv ch 0 E.PSYNC_CAN_OPEN_ALLOW_VIRTUAL = (r1, d1))
    (hrate : api.psync_can_set_bit_rate d1 ch DATARATE_500K = (r2, d2))
    (hbus : api.psync_can_go_on_bus d2 ch = (r3, d3)) :
    on_init E api ch w
      = if r1 ≠ DTC_NONE then
          { drv := d1,
            trace := w.trace
              ++ [Event.can_open ch 0 E.PSYNC_CAN_OPEN_ALLOW_VIRTUAL r1,
                  Event.log_message E.LOG_LEVEL_ERROR
                    "%s : (%u) -- psync_can_open returned DTC %d" (some r1),
                  Event.activate_fault r1 NODE_STATE_FATAL] }
        else if r2 ≠ DTC_NONE then
          { drv := d2,
            trace := w.trace
              ++ [Event.can_open ch 0 E.PSYNC_CAN_OPEN_ALLOW_VIRTUAL r1,
                  Event.can_set_bit_rate ch DATARATE_500K r2,
                  Event.log_message E.LOG_LEVEL_ERROR
                    "%s : (%u) -- psync_can_set_bit_rate returned DTC %d" (some r2),
                  Event.activate_fault r2 NODE_STATE_FATAL] }
        else if r3 ≠ DTC_NONE then
          { drv := d3,
            trace := w.trace
              ++ [Event.can_open ch 0 E.PSYNC_CAN_OPEN_ALLOW_VIRTUAL r1,
                  Event.can_set_bit_rate ch DATARATE_500K r2,
                  Event.can_go_on_bus ch r3,
                  Event.log_message E.LOG_LEVEL_ERROR
                    "%s : (%u) -- psync_can_go_on_bus returned DTC %d" (some r3),
                  Event.activate_fault r3 NODE_STATE_FATAL] }
        else
          { drv := d3,
            trace := w.trace
              ++ [Event.can_open ch 0 E.PSYNC_CAN_OPEN_ALLOW_VIRTUAL r1,
                  Event.can_set_bit_rate ch DATARATE_500K r2,
                  Event.can_go_on_bus ch r3] } := by
  by_cases h1 : r1 = DTC_NONE
  · by_cases h2 : r2 = DTC_NONE
    · by_cases h3 : r3 = DTC_NONE
      · subst h1 h2 h3
        simp [on_init, call_open, call_set_bit_rate, call_go_on_bus, hch, hopen, hrate, hbus,
          CAN_CHANNEL_SYSTEM_ID, CAN_CHANNEL_BITRATE]
      · subst h1 h2
        simp [on_init, call_open, call_set_bit_rate, call_go_on_bus, World.emit, hch, hopen,
          hrate, hbus, h3, CAN_CHANNEL_SYSTEM_ID, CAN_CHANNEL_BITRATE]
    · subst h1
      simp [on_init, call_open, call_set_bit_rate, World.emit, hch, hopen, hrate, h2,
        CAN_CHANNEL_SYSTEM_ID, CAN_CHANNEL_BITRATE]
  · simp [on_init, call_open, World.emit, hch, hopen, h1, CAN_CHANNEL_SYSTEM_ID]

theorem faults_append (a b : List Event) : faults (a ++ b) = faults a ++ faults b := by
  simp [faults]

theorem printed_append (a b : List Event) : printed (a ++ b) = printed a ++ printed b := by
  simp [printed]

theorem driver_calls_append (a b : List Event) :
    driver_calls (a ++ b) = driver_calls a ++ driver_calls b := by
  simp [driver_calls]

theorem fatal_activated_append (a b : List Event) :
    fatal_activated (a ++ b) = (fatal_activated a || fatal_activated b) := by
  simp [fatal_activated]

/-! ## Claims about `on_ok` -/

/-- C1: on a non-NULL channel, when `psync_can_read` returns a DTC `ret` other
than `DTC_NONE`, `DTC_UNAVAILABLE` and `DTC_INTR`, `on_ok` appends to the trace
exactly the read, one error log and one fault activation with DTC `ret` and
target `NODE_STATE_FATAL`; so it activates exactly one fault and prints no
frame line. -/
theorem on_ok_other_error_activates_fatal {σ : Type} (E : Env) (api : CanApi σ) (ch : Ptr)
    (stack_frame : ps_can_frame) (w : World σ) (ret : Int) (frame : ps_can_frame) (drv2 : σ)
    (hch : ch ≠ NULL)
    (hread : api.psync_can_read w.drv ch (memset_frame_zero stack_frame) 10000
      = (ret, frame, drv2))
    (h0 : ret ≠ DTC_NONE) (hU : ret ≠ E.DTC_UNAVAILABLE) (hI : ret ≠ E.DTC_INTR) :
    (on_ok E api ch stack_frame w).trace
        = w.trace ++ [Event.can_read ch (memset_frame_zero stack_frame) 10000 ret frame,
            Event.log_message E.LOG_LEVEL_ERROR
              "%s : (%u) -- psync_can_read returned DTC %d" (some ret),
            Event.activate_fault ret NODE_STATE_FATAL]
      ∧ faults (on_ok E api ch stack_frame w).trace
          = faults w.trace ++ [(ret, NODE_STATE_FATAL)]
      ∧ printed (on_ok E api ch stack_frame w).trace = printed w.trace := by
  have ht := on_ok_trace E api ch stack_frame w hch
  rw [hread] at ht
  simp only [h0, hU, hI, if_false, or_self] at ht
  rw [ht]
  refine ⟨by simp, ?_, ?_⟩
  · rw [List.append_assoc, faults_append]; simp [faults]
  · rw [List.append_assoc, printed_append]; simp [printed]

/-- Witness for C1: a replaying driver whose read returns DTC 7. -/
theorem on_ok_other_error_activates_fatal_witness :
    (on_ok exampleEnv replayApi 1 frame_0x123 { drv := [(7, frame_0x123)], trace := [] }).trace
        = [] ++ [Event.can_read 1 (memset_frame_zero frame_0x123) 10000 7 frame_0x123,
            Event.log_message exampleEnv.LOG_LEVEL_ERROR
              "%s : (%u) -- psync_can_read returned DTC %d" (some 7),
            Event.activate_fault 7 NODE_STATE_FATAL]
      ∧ faults (on_ok exampleEnv replayApi 1 frame_0x123
            { drv := [(7, frame_0x123)], trace := [] }).trace
          = faults [] ++ [(7, NODE_STATE_FATAL)]
      ∧ printed (on_ok exampleEnv replayApi 1 frame_0x123
            { drv := [(7, frame_0x123)], trace := [] }).trace = printed [] :=
  on_ok_other_error_activates_fatal exampleEnv replayApi 1 frame_0x123
    { drv := [(7, frame_0x123)], trace := [] } 7 frame_0x123 []
    (by decide) rfl (by decide) (by decide) (by decide)

/-- C2: on a non-NULL channel, when `psync_can_read` returns `DTC_UNAVAILABLE`
(timeout) or `DTC_INTR` (interrupted), both different from `DTC_NONE`, `on_ok`
appends nothing but the read itself to the trace: no fault, no printed line,
no log; it returns with the driver state the read left, and the fatal status
of the node is unchanged, so `on_ok` may run again on the next tick. -/
theorem on_ok_timeout_or_interrupt_is_ignored {σ : Type} (E : Env) (api : CanApi σ)
    (ch : Ptr) (stack_frame : ps_can_frame) (w : World σ) (ret : Int) (frame : ps_can_frame)
    (drv2 : σ)
    (hU0 : E.DTC_UNAVAILABLE ≠ DTC_NONE) (hI0 : E.DTC_INTR ≠ DTC_NONE)
    (hch : ch ≠ NULL)
    (hread : api.psync_can_read w.drv ch (memset_frame_zero stack_frame) 10000
      = (ret, frame, drv2))
    (hret : ret = E.DTC_UNAVAILABLE ∨ ret = E.DTC_INTR) :
    on_ok E api ch stack_frame w
        = { drv := drv2,
            trace := w.trace
              ++ [Event.can_read ch (memset_frame_zero stack_frame) 10000 ret frame] }
      ∧ faults (on_ok E api ch stack_frame w).trace = faults w.trace
      ∧ printed (on_ok E api ch stack_frame w).trace = printed w.trace
      ∧ fatal_activated (on_ok E api ch stack_frame w).trace = fatal_activated w.trace := by
  have h0 : ret ≠ DTC_NONE := by
    rcases hret with h | h <;> rw [h] <;> assumption
  have hw : on_ok E api ch stack_frame w
      = { drv := drv2,
          trace := w.trace
            ++ [Event.can_read ch (memset_frame_zero stack_frame) 10000 ret frame] } := by
    rcases hret with h | h
    · subst h
      simp [on_ok, call_read, World.emit, hch, hread, h0]
    · subst h
      simp [on_ok, call_read, World.emit, hch, hread, h0]
  rw [hw]
  refine ⟨rfl, ?_, ?_, ?_⟩
  · rw [faults_append]; simp [faults]
  · rw [printed_append]; simp [printed]
  · rw [fatal_activated_append]; simp [fatal_activated]

/-- Witness for C2: a replaying driver whose read times out. -/
theorem on_ok_timeout_or_interrupt_is_ignored_witness :
    on_ok exampleEnv replayApi 1 frame_0x123 { drv := [(10, frame_0x123)], trace := [] }
        = { drv := [],
            trace := [] ++ [Event.can_read 1 (memset_frame_zero frame_0x123) 10000 10
              frame_0x123] }
      ∧ faults (on_ok exampleEnv replayApi 1 frame_0x123
          { drv := [(10, frame_0x123)], trace := [] }).trace = faults []
      ∧ printed (on_ok exampleEnv replayApi 1 frame_0x123
          { drv := [(10, frame_0x123)], trace := [] }).trace = printed []
      ∧ fatal_activated (on_ok exampleEnv replayApi 1 frame_0x123
          { drv := [(10, frame_0x123)], trace := [] }).trace = fatal_activated [] :=
  on_ok_timeout_or_interrupt_is_ignored exampleEnv replayApi 1 frame_0x123
    { drv := [(10, frame_0x123)], trace := [] } 10 frame_0x123 []
    (by decide) (by decide) (by decide) rfl (Or.inl rfl)

/-- C3: when `psync_can_read` delivers a frame with result `DTC_NONE`, `on_ok`
appends to the trace exactly the read and one printed line
`CAN frame - ID: 0x<id, upper-case hex> (<id, decimal>) - DLC: <dlc, decimal>`
ending in a newline; the numerals of the line read back as the id and dlc of
the frame read; no fault is activated; and for id 0x123, dlc 4 the line is
`CAN frame - ID: 0x123 (291) - DLC: 4`. -/
theorem on_ok_prints_frame_line {σ : Type} (E : Env) (api : CanApi σ) (ch : Ptr)
    (stack_frame : ps_can_frame) (w : World σ) (frame : ps_can_frame) (drv2 : σ)
    (hch : ch ≠ NULL)
    (hread : api.psync_can_read w.drv ch (memset_frame_zero stack_frame) 10000
      = (DTC_NONE, frame, drv2)) :
    (on_ok E api ch stack_frame w).trace
        = w.trace ++ [Event.can_read ch (memset_frame_zero stack_frame) 10000 DTC_NONE frame,
            Event.printf (String.mk ("CAN frame - ID: 0x".toList ++ fmt_lX frame.id
              ++ " (".toList ++ fmt_lu frame.id ++ ") - DLC: ".toList ++ fmt_lu frame.dlc
              ++ "\n".toList))]
      ∧ parse_hex (fmt_lX frame.id) = frame.id
      ∧ parse_dec (fmt_lu frame.id) = frame.id
      ∧ parse_dec (fmt_lu frame.dlc) = frame.dlc
      ∧ faults (on_ok E api ch stack_frame w).trace = faults w.trace
      ∧ (frame.id = 0x123 → frame.dlc = 4 →
          printed (on_ok E api ch stack_frame w).trace
            = printed w.trace ++ ["CAN frame - ID: 0x123 (291) - DLC: 4\n"]) := by
  have ht := on_ok_trace E api ch stack_frame w hch
  rw [hread] at ht
  simp only [if_true] at ht
  rw [printf_frame_line] at ht
  refine ⟨?_, parse_hex_fmt_lX _, parse_dec_fmt_lu _, parse_dec_fmt_lu _, ?_, ?_⟩
  · rw [ht]; simp
  · rw [ht, List.append_assoc, faults_append]; simp [faults]
  · intro hid hdlc
    rw [ht, List.append_assoc, printed_append, hid, hdlc]
    simp only [printed, List.filterMap_cons, List.filterMap_nil, List.singleton_append]
    congr 1

/-- Witness for C3: the frame of the spec scenario, id 0x123 and dlc 4. -/
theorem on_ok_prints_frame_line_witness :
    (on_ok exampleEnv replayApi 1 frame_0x123 { drv := [(0, frame_0x123)], trace := [] }).trace
        = [Event.can_read 1 (memset_frame_zero frame_0x123) 10000 DTC_NONE frame_0x123,
            Event.printf "CAN frame - ID: 0x123 (291) - DLC: 4\n"]
      ∧ printed (on_ok exampleEnv replayApi 1 frame_0x123
          { drv := [(0, frame_0x123)], trace := [] }).trace
          = ["CAN frame - ID: 0x123 (291) - DLC: 4\n"] :=
  ⟨(on_ok_prints_frame_line exampleEnv replayApi 1 frame_0x123
      { drv := [(0, frame_0x123)], trace := [] } frame_0x123 [] (by decide) rfl).1,
   (on_ok_prints_frame_line exampleEnv replayApi 1 frame_0x123
      { drv := [(0, frame_0x123)], trace := [] } frame_0x123 [] (by decide) rfl).2.2.2.2.2
      rfl rfl⟩

/-- C6: on a non-NULL channel, whatever the driver answers, one invocation of
`on_ok` makes exactly one driver call: `psync_can_read` on that channel with
a timeout of 10000 microseconds and a frame buffer whose id, dlc and payload
bytes are all zero, whatever the local variable held before. -/
theorem on_ok_reads_exactly_once {σ : Type} (E : Env) (api : CanApi σ) (ch : Ptr)
    (stack_frame : ps_can_frame) (w : World σ) (hch : ch ≠ NULL) :
    driver_calls (on_ok E api ch stack_frame w).trace
        = driver_calls w.trace
          ++ [Event.can_read ch (memset_frame_zero stack_frame) 10000
                (api.psync_can_read w.drv ch (memset_frame_zero stack_frame) 10000).1
                (api.psync_can_read w.drv ch (memset_frame_zero stack_frame) 10000).2.1]
      ∧ (memset_frame_zero stack_frame).id = 0
      ∧ (memset_frame_zero stack_frame).dlc = 0
      ∧ (∀ b ∈ (memset_frame_zero stack_frame).data_buffer, b = 0)
      ∧ (memset_frame_zero stack_frame).data_buffer.length = stack_frame.data_buffer.length := by
  refine ⟨?_, rfl, rfl, ?_, ?_⟩
  · rw [on_ok_trace E api ch stack_frame w hch, driver_calls_append, driver_calls_append]
    have hnil : ∀ l : List Event, driver_calls l = [] → driver_calls w.trace
        ++ driver_calls [Event.can_read ch (memset_frame_zero stack_frame) 10000
            (api.psync_can_read w.drv ch (memset_frame_zero stack_frame) 10000).1
            (api.psync_can_read w.drv ch (memset_frame_zero stack_frame) 10000).2.1]
        ++ driver_calls l
        = driver_calls w.trace
          ++ [Event.can_read ch (memset_frame_zero stack_frame) 10000
            (api.psync_can_read w.drv ch (memset_frame_zero stack_frame) 10000).1
            (api.psync_can_read w.drv ch (memset_frame_zero stack_frame) 10000).2.1] := by
      intro l hl
      rw [hl]
      simp [driver_calls]
    apply hnil
    split
    · simp [driver_calls]
    · split <;> simp [driver_calls]
  · intro b hb
    simp only [memset_frame_zero, List.mem_map] at hb
    obtain ⟨_, _, h⟩ := hb
    exact h.symm
  · simp [memset_frame_zero]

/-- Witness for C6: a stack frame holding garbage, a driver that times out. -/
theorem on_ok_reads_exactly_once_witness :
    driver_calls (on_ok exampleEnv replayApi 1 { id := 99, dlc := 7, data_buffer := [5, 6] }
        { drv := [(10, frame_0x123)], trace := [] }).trace
      = [Event.can_read 1 { id := 0, dlc := 0, data_buffer := [0, 0] } 10000 10 frame_0x123] :=
  (on_ok_reads_exactly_once exampleEnv replayApi 1 { id := 99, dlc := 7, data_buffer := [5, 6] }
    { drv := [(10, frame_0x123)], trace := [] } (by decide)).1

/-- C8, refuted as stated: there is no driver, channel and read result other
than `DTC_NONE`, `DTC_UNAVAILABLE` and `DTC_INTR` for which `on_ok` on a
non-NULL channel returns without activating a fault. -/
theorem on_ok_no_silently_ignored_error :
    ¬ ∃ (σ : Type) (E : Env) (api : CanApi σ) (ch : Ptr)
        (stack_frame : ps_can_frame) (w : World σ),
        ch ≠ NULL
        ∧ (api.psync_can_read w.drv ch (memset_frame_zero stack_frame) 10000).1 ≠ DTC_NONE
        ∧ (api.psync_can_read w.drv ch (memset_frame_zero stack_frame) 10000).1
            ≠ E.DTC_UNAVAILABLE
        ∧ (api.psync_can_read w.drv ch (memset_frame_zero stack_frame) 10000).1 ≠ E.DTC_INTR
        ∧ faults (on_ok E api ch stack_frame w).trace = faults w.trace := by
  rintro ⟨σ, E, api, ch, stack_frame, w, hch, h0, hU, hI, hf⟩
  rw [on_ok_trace E api ch stack_frame w hch, List.append_assoc, faults_append] at hf
  simp [h0, hU, hI, faults] at hf

/-- C8, amended: on a non-NULL channel `on_ok` returns without activating a
fault exactly when the read returned `DTC_NONE`, `DTC_UNAVAILABLE` or
`DTC_INTR`; the inner `ret != DTC_NONE` test never fails, so no other read
result is ignored. -/
theorem on_ok_no_fault_iff {σ : Type} (E : Env) (api : CanApi σ) (ch : Ptr)
    (stack_frame : ps_can_frame) (w : World σ) (hch : ch ≠ NULL) :
    faults (on_ok E api ch stack_frame w).trace = faults w.trace
      ↔ ((api.psync_can_read w.drv ch (memset_frame_zero stack_frame) 10000).1 = DTC_NONE
        ∨ (api.psync_can_read w.drv ch (memset_frame_zero stack_frame) 10000).1
            = E.DTC_UNAVAILABLE
        ∨ (api.psync_can_read w.drv ch (memset_frame_zero stack_frame) 10000).1
            = E.DTC_INTR) := by
  rw [on_ok_trace E api ch stack_frame w hch, List.append_assoc, faults_append]
  by_cases h0 : (api.psync_can_read w.drv ch (memset_frame_zero stack_frame) 10000).1 = DTC_NONE
  · simp [h0, faults]
  · by_cases hU : (api.psync_can_read w.drv ch (memset_frame_zero stack_frame) 10000).1
        = E.DTC_UNAVAILABLE
    · simp [h0, hU, faults]
    · by_cases hI : (api.psync_can_read w.drv ch (memset_frame_zero stack_frame) 10000).1
          = E.DTC_INTR
      · simp [h0, hI, faults]
      · simp [h0, hU, hI, faults]

/-- Witness for C8 amended: read result 7 is reported, not ignored. -/
theorem on_ok_no_fault_iff_witness :
    faults (on_ok exampleEnv replayApi 1 frame_0x123
        { drv := [(7, frame_0x123)], trace := [] }).trace = faults []
      ↔ ((7 : Int) = DTC_NONE ∨ (7 : Int) = exampleEnv.DTC_UNAVAILABLE
          ∨ (7 : Int) = exampleEnv.DTC_INTR) :=
  on_ok_no_fault_iff exampleEnv replayApi 1 frame_0x123
    { drv := [(7, frame_0x123)], trace := [] } (by decide)

/-! ## Claims about `on_init` and `on_release` -/

/-- C10: with NULL `user_data`, `on_init` and `on_ok` each append exactly an
error log and one fault activation with `DTC_USAGE` and target
`NODE_STATE_FATAL`, leaving the driver untouched (no driver call, no printed
line); `on_release` does nothing at all (no close, no free). -/
theorem null_user_data_is_usage_fault {σ : Type} (E : Env) (api : CanApi σ)
    (stack_frame : ps_can_frame) (w : World σ) :
    on_init E api NULL w
        = { drv := w.drv,
            trace := w.trace ++ [Event.log_message E.LOG_LEVEL_ERROR
                "%s : (%u) -- invalid CAN channel" none,
              Event.activate_fault E.DTC_USAGE NODE_STATE_FATAL] }
      ∧ on_ok E api NULL stack_frame w
        = { drv := w.drv,
            trace := w.trace ++ [Event.log_message E.LOG_LEVEL_ERROR
                "%s : (%u) -- invalid CAN channel" none,
              Event.activate_fault E.DTC_USAGE NODE_STATE_FATAL] }
      ∧ faults (on_init E api NULL w).trace
          = faults w.trace ++ [(E.DTC_USAGE, NODE_STATE_FATAL)]
      ∧ faults (on_ok E api NULL stack_frame w).trace
          = faults w.trace ++ [(E.DTC_USAGE, NODE_STATE_FATAL)]
      ∧ driver_calls (on_init E api NULL w).trace = driver_calls w.trace
      ∧ driver_calls (on_ok E api NULL stack_frame w).trace = driver_calls w.trace
      ∧ printed (on_ok E api NULL stack_frame w).trace = printed w.trace
      ∧ on_release api NULL w = w := by
  have hi : on_init E api NULL w
        = { drv := w.drv,
            trace := w.trace ++ [Event.log_message E.LOG_LEVEL_ERROR
                "%s : (%u) -- invalid CAN channel" none,
              Event.activate_fault E.DTC_USAGE NODE_STATE_FATAL] } := by
    simp [on_init, World.emit]
  have ho : on_ok E api NULL stack_frame w
        = { drv := w.drv,
            trace := w.trace ++ [Event.log_message E.LOG_LEVEL_ERROR
                "%s : (%u) -- invalid CAN channel" none,
              Event.activate_fault E.DTC_USAGE NODE_STATE_FATAL] } := by
    simp [on_ok, World.emit]
  rw [hi, ho]
  refine ⟨rfl, rfl, ?_, ?_, ?_, ?_, ?_, ?_⟩
  · rw [faults_append]; simp [faults]
  · rw [faults_append]; simp [faults]
  · rw [driver_calls_append]; simp [driver_calls]
  · rw [driver_calls_append]; simp [driver_calls]
  · rw [printed_append]; simp [printed]
  · simp [on_release]

/-- C4: on a non-NULL channel, when open, set_bit_rate and go_on_bus each
return `DTC_NONE`, `on_init` appends exactly three events, in this order:
`psync_can_open` with system index 0 and `PSYNC_CAN_OPEN_ALLOW_VIRTUAL`,
`psync_can_set_bit_rate` with `DATARATE_500K`, `psync_can_go_on_bus`; each
step runs on the driver state the previous one left; no fault is activated. -/
theorem on_init_success_sequence {σ : Type} (E : Env) (api : CanApi σ) (ch : Ptr)
    (w : World σ) (d1 d2 d3 : σ) (hch : ch ≠ NULL)
    (hopen : api.psync_can_open w.drv ch 0 E.PSYNC_CAN_OPEN_ALLOW_VIRTUAL = (DTC_NONE, d1))
    (hrate : api.psync_can_set_bit_rate d1 ch DATARATE_500K = (DTC_NONE, d2))
    (hbus : api.psync_can_go_on_bus d2 ch = (DTC_NONE, d3)) :
    on_init E api ch w
        = { drv := d3,
            trace := w.trace
              ++ [Event.can_open ch 0 E.PSYNC_CAN_OPEN_ALLOW_VIRTUAL DTC_NONE,
                  Event.can_set_bit_rate ch DATARATE_500K DTC_NONE,
                  Event.can_go_on_bus ch DTC_NONE] }
      ∧ driver_calls (on_init E api ch w).trace
          = driver_calls w.trace
            ++ [Event.can_open ch 0 E.PSYNC_CAN_OPEN_ALLOW_VIRTUAL DTC_NONE,
                Event.can_set_bit_rate ch DATARATE_500K DTC_NONE,
                Event.can_go_on_bus ch DTC_NONE]
      ∧ faults (on_init E api ch w).trace = faults w.trace := by
  have hi : on_init E api ch w
        = { drv := d3,
            trace := w.trace
              ++ [Event.can_open ch 0 E.PSYNC_CAN_OPEN_ALLOW_VIRTUAL DTC_NONE,
                  Event.can_set_bit_rate ch DATARATE_500K DTC_NONE,
                  Event.can_go_on_bus ch DTC_NONE] } := by
    simp [on_init, call_open, call_set_bit_rate, call_go_on_bus, hch, hopen, hrate, hbus,
      CAN_CHANNEL_SYSTEM_ID, CAN_CHANNEL_BITRATE]
  rw [hi]
  refine ⟨rfl, ?_, ?_⟩
  · rw [driver_calls_append]; simp [driver_calls]
  · rw [faults_append]; simp [faults]

/-- Witness for C4: a replaying driver that answers `DTC_NONE` three times. -/
theorem on_init_success_sequence_witness :
    (on_init exampleEnv replayApi 1 { drv := [], trace := [] }).trace
      = [Event.can_open 1 0 exampleEnv.PSYNC_CAN_OPEN_ALLOW_VIRTUAL DTC_NONE,
          Event.can_set_bit_rate 1 DATARATE_500K DTC_NONE,
          Event.can_go_on_bus 1 DTC_NONE] :=
  congrArg World.trace
    (on_init_success_sequence exampleEnv replayApi 1 { drv := [], trace := [] } [] [] []
      (by decide) rfl rfl rfl).1

/-- C5: on a non-NULL channel, the first of open, set_bit_rate, go_on_bus that
returns a DTC `r` other than `DTC_NONE` ends `on_init`: the trace gains the
successful earlier steps, the failing step, one error log and exactly one
fault activation with DTC `r` and target `NODE_STATE_FATAL`; no later step is
performed. -/
theorem on_init_first_failure_is_fatal {σ : Type} (E : Env) (api : CanApi σ) (ch : Ptr)
    (w : World σ) (r : Int) (d1 d2 d3 : σ) (hch : ch ≠ NULL) (hr : r ≠ DTC_NONE) :
    (api.psync_can_open w.drv ch 0 E.PSYNC_CAN_OPEN_ALLOW_VIRTUAL = (r, d1) →
      on_init E api ch w
        = { drv := d1,
            trace := w.trace
              ++ [Event.can_open ch 0 E.PSYNC_CAN_OPEN_ALLOW_VIRTUAL r,
                  Event.log_message E.LOG_LEVEL_ERROR
                    "%s : (%u) -- psync_can_open returned DTC %d" (some r),
                  Event.activate_fault r NODE_STATE_FATAL] })
    ∧ (api.psync_can_open w.drv ch 0 E.PSYNC_CAN_OPEN_ALLOW_VIRTUAL = (DTC_NONE, d1) →
        api.psync_can_set_bit_rate d1 ch DATARATE_500K = (r, d2) →
      on_init E api ch w
        = { drv := d2,
            trace := w.trace
              ++ [Event.can_open ch 0 E.PSYNC_CAN_OPEN_ALLOW_VIRTUAL DTC_NONE,
                  Event.can_set_bit_rate ch DATARATE_500K r,
                  Event.log_message E.LOG_LEVEL_ERROR
                    "%s : (%u) -- psync_can_set_bit_rate returned DTC %d" (some r),
                  Event.activate_fault r NODE_STATE_FATAL] })
    ∧ (api.psync_can_open w.drv ch 0 E.PSYNC_CAN_OPEN_ALLOW_VIRTUAL = (DTC_NONE, d1) →
        api.psync_can_set_bit_rate d1 ch DATARATE_500K = (DTC_NONE, d2) →
        api.psync_can_go_on_bus d2 ch = (r, d3) →
      on_init E api ch w
        = { drv := d3,
            trace := w.trace
              ++ [Event.can_open ch 0 E.PSYNC_CAN_OPEN_ALLOW_VIRTUAL DTC_NONE,
                  Event.can_set_bit_rate ch DATARATE_500K DTC_NONE,
                  Event.can_go_on_bus ch r,
                  Event.log_message E.LOG_LEVEL_ERROR
                    "%s : (%u) -- psync_can_go_on_bus returned DTC %d" (some r),
                  Event.activate_fault r NODE_STATE_FATAL] }) := by
  refine ⟨?_, ?_, ?_⟩
  · intro hopen
    simp [on_init, call_open, World.emit, hch, hopen, hr, CAN_CHANNEL_SYSTEM_ID]
  · intro hopen hrate
    simp [on_init, call_open, call_set_bit_rate, World.emit, hch, hopen, hrate, hr,
      CAN_CHANNEL_SYSTEM_ID, CAN_CHANNEL_BITRATE]
  · intro hopen hrate hbus
    simp [on_init, call_open, call_set_bit_rate, call_go_on_bus, World.emit, hch, hopen,
      hrate, hbus, hr, CAN_CHANNEL_SYSTEM_ID, CAN_CHANNEL_BITRATE]

/-- Witness for C5: replaying drivers failing with DTC 3 at open, at
set_bit_rate and at go_on_bus. -/
theorem on_init_first_failure_is_fatal_witness :
    (on_init exampleEnv replayApi 1 { drv := [(3, frame_0x123)], trace := [] }).trace
        = [Event.can_open 1 0 exampleEnv.PSYNC_CAN_OPEN_ALLOW_VIRTUAL 3,
            Event.log_message exampleEnv.LOG_LEVEL_ERROR
              "%s : (%u) -- psync_can_open returned DTC %d" (some 3),
            Event.activate_fault 3 NODE_STATE_FATAL]
      ∧ (on_init exampleEnv replayApi 1
          { drv := [(0, frame_0x123), (3, frame_0x123)], trace := [] }).trace
        = [Event.can_open 1 0 exampleEnv.PSYNC_CAN_OPEN_ALLOW_VIRTUAL DTC_NONE,
            Event.can_set_bit_rate 1 DATARATE_500K 3,
            Event.log_message exampleEnv.LOG_LEVEL_ERROR
              "%s : (%u) -- psync_can_set_bit_rate returned DTC %d" (some 3),
            Event.activate_fault 3 NODE_STATE_FATAL]
      ∧ (on_init exampleEnv replayApi 1
          { drv := [(0, frame_0x123), (0, frame_0x123), (3, frame_0x123)], trace := [] }).trace
        = [Event.can_open 1 0 exampleEnv.PSYNC_CAN_OPEN_ALLOW_VIRTUAL DTC_NONE,
            Event.can_set_bit_rate 1 DATARATE_500K DTC_NONE,
            Event.can_go_on_bus 1 3,
            Event.log_message exampleEnv.LOG_LEVEL_ERROR
              "%s : (%u) -- psync_can_go_on_bus returned DTC %d" (some 3),
            Event.activate_fault 3 NODE_STATE_FATAL] :=
  ⟨congrArg World.trace
      ((on_init_first_failure_is_fatal exampleEnv replayApi 1
        { drv := [(3, frame_0x123)], trace := [] } 3 [] [] [] (by decide) (by decide)).1 rfl),
   congrArg World.trace
      ((on_init_first_failure_is_fatal exampleEnv replayApi 1
        { drv := [(0, frame_0x123), (3, frame_0x123)], trace := [] } 3
        [(3, frame_0x123)] [] [] (by decide) (by decide)).2.1 rfl rfl),
   congrArg World.trace
      ((on_init_first_failure_is_fatal exampleEnv replayApi 1
        { drv := [(0, frame_0x123), (0, frame_0x123), (3, frame_0x123)], trace := [] } 3
        [(0, frame_0x123), (3, frame_0x123)] [(3, frame_0x123)] [] (by decide)
        (by decide)).2.2 rfl rfl rfl)⟩

/-! ## The lifecycle invariant -/

theorem snoc_eq_split (tr pre post : List Event) (x e : Event)
    (h : tr ++ [x] = pre ++ e :: post) :
    (post = [] ∧ e = x ∧ pre = tr) ∨ (∃ post2, post = post2 ++ [x] ∧ tr = pre ++ e :: post2) := by
  rcases List.eq_nil_or_concat post with hp | ⟨L, b, hp⟩
  · subst hp
    left
    have h2 := congrArg List.reverse h
    simp only [List.reverse_append, List.reverse_cons, List.reverse_nil, List.nil_append,
      List.singleton_append, List.cons.injEq, List.reverse_inj] at h2
    exact ⟨rfl, h2.1.symm, h2.2.symm⟩
  · right
    rw [List.concat_eq_append] at hp
    subst hp
    have h2 := congrArg List.reverse h
    simp only [List.reverse_append, List.reverse_cons, List.reverse_nil, List.nil_append,
      List.singleton_append, List.cons_append, List.cons.injEq] at h2
    refine ⟨L, by rw [h2.1], ?_⟩
    have h3 := congrArg List.reverse h2.2
    simpa using h3

theorem readsAfterInit_nil (E : Env) : ReadsAfterInit E [] := by
  intro pre ch buf t r f post h
  cases pre <;> simp at h

theorem readsAfterInit_snoc_other (E : Env) (tr : List Event) (x : Event)
    (hx : is_read x = false) (h : ReadsAfterInit E tr) : ReadsAfterInit E (tr ++ [x]) := by
  intro pre ch buf t r f post hs
  rcases snoc_eq_split tr pre post x _ hs with ⟨_, he, _⟩ | ⟨post2, _, htr⟩
  · rw [← he] at hx
    simp [is_read] at hx
  · exact h pre ch buf t r f post2 htr

theorem readsAfterInit_snoc_read (E : Env) (tr : List Event) (ch : Ptr) (buf : ps_can_frame)
    (t : Nat) (r : Int) (f : ps_can_frame) (hinit : ∃ rest, tr = init_events E ch ++ rest)
    (h : ReadsAfterInit E tr) :
    ReadsAfterInit E (tr ++ [Event.can_read ch buf t r f]) := by
  intro pre ch2 buf2 t2 r2 f2 post hs
  rcases snoc_eq_split tr pre post _ _ hs with ⟨_, he, hpre⟩ | ⟨post2, _, htr⟩
  · injection he with hc
    subst hc
    rw [hpre]
    exact hinit
  · exact h pre ch2 buf2 t2 r2 f2 post2 htr

theorem readsAfterInit_append_others (E : Env) (tr l : List Event)
    (hl : ∀ e ∈ l, is_read e = false) (h : ReadsAfterInit E tr) :
    ReadsAfterInit E (tr ++ l) := by
  induction l generalizing tr with
  | nil => simpa using h
  | cons x xs ih =>
    have hx : is_read x = false := hl x (List.mem_cons_self _ _)
    have := ih (tr ++ [x]) (fun e he => hl e (List.mem_cons_of_mem _ he))
      (readsAfterInit_snoc_other E tr x hx h)
    simpa using this

theorem lifecycleInv_append_others (E : Env) (user_data : Ptr) (tr l : List Event)
    (hl : ∀ e ∈ l, is_read e = false) (h : LifecycleInv E user_data tr) :
    LifecycleInv E user_data (tr ++ l) := by
  refine ⟨readsAfterInit_append_others E tr l hl h.1, ?_⟩
  intro hf
  rw [fatal_activated_append, Bool.or_eq_false_iff] at hf
  obtain ⟨rest, hrest⟩ := h.2 hf.1
  exact ⟨rest ++ l, by rw [← List.append_assoc, ← hrest]⟩

theorem on_init_lifecycleInv {σ : Type} (E : Env) (api : CanApi σ) (user_data : Ptr)
    (drv0 : σ) :
    LifecycleInv E user_data (on_init E api user_data { drv := drv0, trace := [] }).trace := by
  by_cases hch : user_data = NULL
  · subst hch
    constructor
    · have := readsAfterInit_append_others E []
        [Event.log_message E.LOG_LEVEL_ERROR "%s : (%u) -- invalid CAN channel" none,
          Event.activate_fault E.DTC_USAGE NODE_STATE_FATAL]
        (by simp [is_read]) (readsAfterInit_nil E)
      simpa [on_init, World.emit] using this
    · intro hf
      simp [on_init, World.emit, fatal_activated] at hf
  · generalize ho : api.psync_can_open drv0 user_data 0 E.PSYNC_CAN_OPEN_ALLOW_VIRTUAL = ro
    obtain ⟨r1, d1⟩ := ro
    generalize hs : api.psync_can_set_bit_rate d1 user_data DATARATE_500K = rs
    obtain ⟨r2, d2⟩ := rs
    generalize hg : api.psync_can_go_on_bus d2 user_data = rg
    obtain ⟨r3, d3⟩ := rg
    have ht := on_init_eq E api user_data { drv := drv0, trace := [] } r1 r2 r3 d1 d2 d3
      hch ho hs hg
    rw [ht]
    by_cases h1 : r1 = DTC_NONE
    · by_cases h2 : r2 = DTC_NONE
      · by_cases h3 : r3 = DTC_NONE
        · subst h1 h2 h3
          simp only [ne_eq, not_true_eq_false, if_false]
          constructor
          · exact readsAfterInit_append_others E [] _ (by simp [is_read])
              (readsAfterInit_nil E)
          · intro _
            exact ⟨[], by simp [init_events, CAN_CHANNEL_SYSTEM_ID, CAN_CHANNEL_BITRATE]⟩
        · subst h1 h2
          simp only [ne_eq, not_true_eq_false, if_false, h3, not_false_eq_true, if_true]
          constructor
          · exact readsAfterInit_append_others E [] _ (by simp [is_read])
              (readsAfterInit_nil E)
          · intro hf
            simp [fatal_activated] at hf
      · subst h1
        simp only [ne_eq, not_true_eq_false, if_false, h2, not_false_eq_true, if_true]
        constructor
        · exact readsAfterInit_append_others E [] _ (by simp [is_read])
            (readsAfterInit_nil E)
        · intro hf
          simp [fatal_activated] at hf
    · simp only [ne_eq, h1, not_false_eq_true, if_true]
      constructor
      · exact readsAfterInit_append_others E [] _ (by simp [is_read])
          (readsAfterInit_nil E)
      · intro hf
        simp [fatal_activated] at hf

theorem step_lifecycleInv {σ : Type} (E : Env) (api : CanApi σ) (user_data : Ptr)
    (w w2 : World σ) (hstep : Step E api user_data w w2)
    (h : LifecycleInv E user_data w.trace) : LifecycleInv E user_data w2.trace := by
  cases hstep with
  | ok stack_frame hf =>
    by_cases hch : user_data = NULL
    · subst hch
      have := lifecycleInv_append_others E NULL w.trace
        [Event.log_message E.LOG_LEVEL_ERROR "%s : (%u) -- invalid CAN channel" none,
          Event.activate_fault E.DTC_USAGE NODE_STATE_FATAL]
        (by simp [is_read]) h
      simpa [on_ok, World.emit] using this
    · rw [on_ok_trace E api user_data stack_frame w hch]
      apply lifecycleInv_append_others
      · intro e he
        split at he
        · simp at he; subst he; rfl
        · split at he
          · simp at he
          · simp at he
            rcases he with he | he <;> subst he <;> rfl
      · refine ⟨readsAfterInit_snoc_read E w.trace user_data _ _ _ _ (h.2 hf) h.1, ?_⟩
        intro _
        obtain ⟨rest, hrest⟩ := h.2 hf
        exact ⟨rest ++ [Event.can_read user_data (memset_frame_zero stack_frame) 10000
          (api.psync_can_read w.drv user_data (memset_frame_zero stack_frame) 10000).1
          (api.psync_can_read w.drv user_data (memset_frame_zero stack_frame) 10000).2.1],
          by rw [← List.append_assoc, ← hrest]⟩
  | warn =>
    exact lifecycleInv_append_others E user_data w.trace [Event.sleep_micro 10000]
      (by simp [is_read]) h
  | error =>
    exact lifecycleInv_append_others E user_data w.trace [Event.sleep_micro 10000]
      (by simp [is_read]) h
  | fatal =>
    exact lifecycleInv_append_others E user_data w.trace [Event.sleep_micro 10000]
      (by simp [is_read]) h
  | release =>
    by_cases hch : user_data = NULL
    · simpa [on_release, hch] using h
    · have := lifecycleInv_append_others E user_data w.trace
        [Event.can_close user_data (api.psync_can_close w.drv user_data).1,
          Event.free user_data]
        (by simp [is_read]) h
      simpa [on_release, call_close, World.emit, hch] using this

theorem run_lifecycleInv {σ : Type} (E : Env) (api : CanApi σ) (user_data : Ptr) (drv0 : σ)
    (w : World σ) (hrun : Run E api user_data drv0 w) : LifecycleInv E user_data w.trace := by
  induction hrun with
  | init => exact on_init_lifecycleInv E api user_data drv0
  | step _ hstep ih => exact step_lifecycleInv E api user_data _ _ hstep ih

/-! ## Claim about the lifecycle -/

/-- C9: in every run of the node in which `on_init` runs once first and `on_ok`
runs only while no fatal fault has been activated, each `psync_can_read` event
of the trace is preceded by the events of a successful initialisation of the
channel it reads: the trace before it starts with `psync_can_open`,
`psync_can_set_bit_rate` and `psync_can_go_on_bus`, each returning `DTC_NONE`;
an invariant of the step relation `Step`. -/
theorem read_only_after_go_on_bus {σ : Type} (E : Env) (api : CanApi σ) (user_data : Ptr)
    (drv0 : σ) (w : World σ) (hrun : Run E api user_data drv0 w) :
    ∀ pre ch buf t r f post, w.trace = pre ++ Event.can_read ch buf t r f :: post →
      ∃ rest, pre = [Event.can_open ch 0 E.PSYNC_CAN_OPEN_ALLOW_VIRTUAL DTC_NONE,
                      Event.can_set_bit_rate ch DATARATE_500K DTC_NONE,
                      Event.can_go_on_bus ch DTC_NONE] ++ rest :=
  (run_lifecycleInv E api user_data drv0 w hrun).1

/-- Witness for C9: a run of `on_init` and one `on_ok` tick on a replaying
driver that initialises and then delivers the frame 0x123. -/
theorem read_only_after_go_on_bus_witness :
    ∃ rest, [Event.can_open 1 0 exampleEnv.PSYNC_CAN_OPEN_ALLOW_VIRTUAL DTC_NONE,
              Event.can_set_bit_rate 1 DATARATE_500K DTC_NONE,
              Event.can_go_on_bus 1 DTC_NONE]
        = [Event.can_open 1 0 exampleEnv.PSYNC_CAN_OPEN_ALLOW_VIRTUAL DTC_NONE,
            Event.can_set_bit_rate 1 DATARATE_500K DTC_NONE,
            Event.can_go_on_bus 1 DTC_NONE] ++ rest :=
  read_only_after_go_on_bus exampleEnv replayApi 1
    [(0, frame_0x123), (0, frame_0x123), (0, frame_0x123), (0, frame_0x123)]
    (on_ok exampleEnv replayApi 1 frame_0x123
      (on_init exampleEnv replayApi 1
        { drv := [(0, frame_0x123), (0, frame_0x123), (0, frame_0x123), (0, frame_0x123)],
          trace := [] }))
    (Run.step Run.init (Step.ok _ frame_0x123 (by decide)))
    [Event.can_open 1 0 exampleEnv.PSYNC_CAN_OPEN_ALLOW_VIRTUAL DTC_NONE,
      Event.can_set_bit_rate 1 DATARATE_500K DTC_NONE,
      Event.can_go_on_bus 1 DTC_NONE]
    1 (memset_frame_zero frame_0x123) 10000 0 frame_0x123
    [Event.printf "CAN frame - ID: 0x123 (291) - DLC: 4\n"]
    (by decide)

/-! ## Claim about `set_configuration` -/

theorem le_foldr_max (l : List Nat) (p : Nat) (hp : p ∈ l) : p ≤ l.foldr max 0 := by
  induction l with
  | nil => simp at hp
  | cons x xs ih =>
    rcases List.mem_cons.1 hp with h | h
    · subst h; simp
    · have := ih h
      simp only [List.foldr_cons]
      omega

theorem fresh_address_unused (h : Heap) : h.block (fresh_address h) = none := by
  unfold Heap.block
  rw [Option.map_eq_none', List.find?_eq_none]
  intro b hb
  have hle : b.1 ≤ (h.map Prod.fst).foldr max 0 :=
    le_foldr_max _ _ (List.mem_map_of_mem Prod.fst hb)
  have hne : b.1 ≠ fresh_address h := by
    intro heq
    rw [heq] at hle
    exact absurd hle (Nat.not_succ_le_self _)
  simpa using hne

theorem c_string_strncpy_node_name (dst : List Nat) (n : Nat) (hn : NODE_NAME.length < n) :
    c_string (strncpy dst (c_bytes NODE_NAME) n) = NODE_NAME := by
  have hlen : (c_bytes NODE_NAME).length = 21 := by decide
  have hn2 : 21 < n := by
    have : NODE_NAME.length = 21 := by decide
    omega
  obtain ⟨k, hk⟩ : ∃ k, n - 21 = k + 1 := ⟨n - 22, by omega⟩
  unfold strncpy
  rw [List.take_of_length_le (by omega), hlen, hk, List.replicate_succ]
  simp [c_string, c_bytes, NODE_NAME, List.takeWhile]

/-- C7: `set_configuration` returns `DTC_NONE` exactly when `malloc` returns a
non-NULL block.  On success `user_data` is the block `malloc` returned in this
call: non-NULL, not allocated before, and holding `sizeof(ps_can_channel)`
zero bytes.  On failure the result is `DTC_MEMERR`, `user_data` is NULL and
the heap is unchanged.  In both cases node_type, domain_id, sdf_key, flags
(`NODE_FLAGS_VALUE | PSYNC_INIT_FLAG_STDOUT_LOGGING`) and the node name string
(`polysync-can-reader-c`) hold their defaults.  Assumes `DTC_MEMERR` differs
from `DTC_NONE` and the name fits the `node_name` array with its NUL. -/
theorem set_configuration_result (E : Env) (node_config : ps_node_configuration_data)
    (h : Heap) (out_of_memory : Bool) (garbage : Nat → Nat)
    (hM : E.DTC_MEMERR ≠ DTC_NONE) (hN : NODE_NAME.length < E.sizeof_node_name) :
    ((set_configuration E node_config h out_of_memory garbage).ret = DTC_NONE
        ↔ (malloc h E.sizeof_can_channel out_of_memory garbage).1 ≠ NULL)
    ∧ ((malloc h E.sizeof_can_channel out_of_memory garbage).1 ≠ NULL →
        (set_configuration E node_config h out_of_memory garbage).node_config.user_data
            = (malloc h E.sizeof_can_channel out_of_memory garbage).1
        ∧ h.block (set_configuration E node_config h out_of_memory garbage).node_config.user_data
            = none
        ∧ (set_configuration E node_config h out_of_memory garbage).heap.block
            (set_configuration E node_config h out_of_memory garbage).node_config.user_data
            = some (List.replicate E.sizeof_can_channel 0))
    ∧ ((malloc h E.sizeof_can_channel out_of_memory garbage).1 = NULL →
        (set_configuration E node_config h out_of_memory garbage).ret = E.DTC_MEMERR
        ∧ (set_configuration E node_config h out_of_memory garbage).node_config.user_data = NULL
        ∧ (set_configuration E node_config h out_of_memory garbage).heap = h)
    ∧ (set_configuration E node_config h out_of_memory garbage).node_config.node_type
        = E.PSYNC_NODE_TYPE_API_USER
    ∧ (set_configuration E node_config h out_of_memory garbage).node_config.domain_id
        = E.PSYNC_DEFAULT_DOMAIN
    ∧ (set_configuration E node_config h out_of_memory garbage).node_config.sdf_key
        = E.PSYNC_SDF_ID_INVALID
    ∧ (set_configuration E node_config h out_of_memory garbage).node_config.flags
        = E.NODE_FLAGS_VALUE ||| E.PSYNC_INIT_FLAG_STDOUT_LOGGING
    ∧ c_string (set_configuration E node_config h out_of_memory garbage).node_config.node_name
        = "polysync-can-reader-c" := by
  have hname := c_string_strncpy_node_name (memset node_config.node_name 0 E.sizeof_node_name)
    E.sizeof_node_name hN
  cases out_of_memory with
  | true =>
    simp [set_configuration, malloc, hM]
    exact hname
  | false =>
    have hfresh : fresh_address h ≠ NULL := by simp [fresh_address, NULL]
    have hunused := fresh_address_unused h
    have hblock : Heap.block (Heap.memset
        ((fresh_address h, (List.range E.sizeof_can_channel).map garbage) :: h)
        (fresh_address h) 0 E.sizeof_can_channel) (fresh_address h)
        = some (List.replicate E.sizeof_can_channel 0) := by
      simp [Heap.block, Heap.memset, memset]
    simp only [set_configuration, malloc, Bool.false_eq_true, if_false, hfresh, ne_eq,
      not_false_eq_true, true_iff, true_implies, false_implies, and_true, true_and,
      hunused, hblock]
    exact hname

/-- Witness for C7: a successful allocation on an empty heap. -/
theorem set_configuration_result_witness :
    (set_configuration exampleEnv
        { node_type := 9, domain_id := 9, sdf_key := 9, flags := 9, user_data := 9,
          node_name := List.replicate 32 9 } [] false (fun i => i + 1)).ret = DTC_NONE
      ↔ (malloc [] exampleEnv.sizeof_can_channel false (fun i => i + 1)).1 ≠ NULL :=
  (set_configuration_result exampleEnv
    { node_type := 9, domain_id := 9, sdf_key := 9, flags := 9, user_data := 9,
      node_name := List.replicate 32 9 } [] false (fun i => i + 1)
    (by decide) (by decide)).1

end CanReader
